import Mathlib

/-!
Verification development for the `oauth-client` TypeScript library
(`src/index.ts`): an OAuth2 token store with transparent refresh.

The embedding is a small-step operational model of the asynchronous
behaviour of `TokenStore` under the JavaScript cooperative scheduling
model.  External stimuli (callers invoking `getAccessToken`, network
completions of the token-endpoint POST, the `setTimeout` retry timer
firing, `onRefreshToken` registrations) are events; processing one event
runs the corresponding synchronous handler code together with the
microtasks it unleashes, atomically, exactly in JavaScript's microtask
order.  Each step emits a list of observable actions (network requests
issued, the token set being replaced, the registered callback being
invoked, outcomes being delivered to waiting callers, the `_promise`
in-flight marker being set or cleared, retry timers being scheduled),
so that temporal claims become statements about the action trace.

Times are naturals (milliseconds, as in `Date.now()`).  Callbacks are
identified by numeric ids; whether the k-th callback invocation throws
is a parameter of the semantics (`cbThrows`), since the callback is
caller-supplied code.
-/

namespace OAuthClient

/-- Response body of the token endpoint (`OAuth2ClientTokens`). -/
structure OAuth2ClientTokens where
  access_token : String
  expires_in : Nat
  refresh_token : String
  scope : String
  token_type : String
deriving Repr, DecidableEq

/-- `OAuth2ClientTokensWithExpiration`: the stored token set, with the
locally derived absolute expiration timestamp. -/
structure OAuth2ClientTokensWithExpiration extends OAuth2ClientTokens where
  expires_at : Nat
deriving Repr, DecidableEq

/-- `OAuth2ClientOptions`, minus the axios transport (external). -/
structure OAuth2ClientOptions where
  clientId : String
  clientSecret : String
  tokenEndpoint : String
  scopes : Option (List String)
deriving Repr, DecidableEq

/-- `GrantType` from the source: `'ad' | 'password' | 'refresh_token'`. -/
inductive GrantType where
  | ad
  | password
  | refresh_token
deriving Repr, DecidableEq

/-- The `ClientOptions` request body used by the login grants. -/
structure ClientOptions where
  client_id : String
  code : Option String := none
  state : Option String := none
  username : Option String := none
  password : Option String := none
  client_secret : String
  grant_type : GrantType
  scope : Option String := none
deriving Repr, DecidableEq

/-- The request body sent by `getNewAccessToken` (refresh grant). -/
structure RefreshRequestBody where
  grant_type : GrantType
  refresh_token : String
  client_id : String
  client_secret : String
  scope : Option String
deriving Repr, DecidableEq

/-- `this.options.scopes?.join(' ')`. -/
def scopeParam (options : OAuth2ClientOptions) : Option String :=
  options.scopes.map (fun ss => String.intercalate " " ss)

/-- The body of the POST issued by `getNewAccessToken(refreshToken)`. -/
def refreshRequestBody (options : OAuth2ClientOptions) (refreshToken : String) :
    RefreshRequestBody :=
  { grant_type := GrantType.refresh_token
    refresh_token := refreshToken
    client_id := options.clientId
    client_secret := options.clientSecret
    scope := scopeParam options }

/-- `{ ...data, expires_at: Date.now() + data.expires_in * 1000 }` — the
token-set literal built from a successful endpoint response, both in
`getNewAccessToken` and in `OAuth2Client.login`. -/
def withExpiration (now : Nat) (data : OAuth2ClientTokens) :
    OAuth2ClientTokensWithExpiration :=
  { toOAuth2ClientTokens := data, expires_at := now + data.expires_in * 1000 }

/-- An outstanding network call of the store: its call id, the logical
refresh operation (outer promise) it belongs to, and whether it is the
retry attempt (issued from inside the `setTimeout`). -/
structure PendingCall where
  id : Nat
  op : Nat
  isRetry : Bool
deriving Repr, DecidableEq

/-- State of one `TokenStore` instance, plus scheduler bookkeeping:
outstanding network calls, scheduled retry timers (due time, operation),
callers currently awaiting an operation, and the current clock. -/
structure StoreState where
  options : OAuth2ClientOptions
  tokens : OAuth2ClientTokensWithExpiration
  onTokensRefreshedCallback : Option Nat := none
  marker : Option Nat := none
  nextOp : Nat := 0
  nextCall : Nat := 0
  pendingCalls : List PendingCall := []
  pendingTimers : List (Nat × Nat) := []
  waiters : List (Nat × Nat) := []
  cbCount : Nat := 0
  now : Nat := 0
deriving Repr, DecidableEq

/-- `new TokenStore(options, tokens)`. -/
def newTokenStore (options : OAuth2ClientOptions)
    (tokens : OAuth2ClientTokensWithExpiration) : StoreState :=
  { options := options, tokens := tokens }

/-- `onRefreshToken(callback)`: overwrite the single callback slot. -/
def onRefreshToken (s : StoreState) (cb : Nat) : StoreState :=
  { s with onTokensRefreshedCallback := some cb }

/-- `getTokens()`: pure read of the current token set. -/
def getTokens (s : StoreState) : OAuth2ClientTokensWithExpiration :=
  s.tokens

/-- `getRefreshToken()`: `this.tokens.refresh_token`. -/
def getRefreshToken (s : StoreState) : String :=
  s.tokens.refresh_token

/-- `accessTokenExpired()`: `Date.now() >= this.tokens.expires_at`. -/
def accessTokenExpired (now : Nat) (s : StoreState) : Bool :=
  decide (s.tokens.expires_at ≤ now)

/-- Observable actions emitted while processing one event. -/
inductive Action where
  | netRequest (callId : Nat) (endpoint : String) (body : RefreshRequestBody)
  | setMarker (op : Nat)
  | clearMarker (op : Nat)
  | storeTokens (tokens : OAuth2ClientTokensWithExpiration)
  | invokeCb (cb : Nat) (tokens : OAuth2ClientTokensWithExpiration) (threw : Bool)
  | logError (msg : String)
  | scheduleRetry (op : Nat) (due : Nat)
  | deliverSuccess (caller : Nat) (accessToken : String)
  | deliverFailure (caller : Nat) (msg : String)
deriving Repr, DecidableEq

def Action.isNetRequest : Action → Bool
  | .netRequest _ _ _ => true
  | _ => false

def Action.isInvokeCb : Action → Bool
  | .invokeCb _ _ _ => true
  | _ => false

def Action.isDeliver : Action → Bool
  | .deliverSuccess _ _ => true
  | .deliverFailure _ _ => true
  | _ => false

def Action.isClearMarker : Action → Bool
  | .clearMarker _ => true
  | _ => false

def Action.isStoreTokens : Action → Bool
  | .storeTokens _ => true
  | _ => false

/-- External stimuli driving a `TokenStore`. -/
inductive Event where
  | register (cb : Nat) (t : Nat)
  | call (caller : Nat) (t : Nat)
  | netOk (callId : Nat) (t : Nat) (data : OAuth2ClientTokens)
  | netFail (callId : Nat) (t : Nat)
  | timerFire (op : Nat) (t : Nat)
deriving Repr, DecidableEq

def Event.time : Event → Nat
  | .register _ t => t
  | .call _ t => t
  | .netOk _ t _ => t
  | .netFail _ t => t
  | .timerFire _ t => t

/-- `setTimeout` semantics: no event may be processed later than a
scheduled timer's due time without the timer firing first. -/
def timersOk (s : StoreState) (t : Nat) : Prop :=
  ∀ p ∈ s.pendingTimers, t ≤ p.1

instance timersOkDecidable (s : StoreState) (t : Nat) : Decidable (timersOk s t) :=
  inferInstanceAs (Decidable (∀ p ∈ s.pendingTimers, t ≤ p.1))

/-- The rejection message: `new Error('Failed to refresh access token')`. -/
def refreshFailedMsg : String := "Failed to refresh access token"

/-- The `console.error` line of the first-attempt catch handler. -/
def retryLogMsg : String := "Failed to refresh access token, trying again..."

/-- `setTokens(tokens)`: `this.tokens = tokens` and then
`this.onTokensRefreshedCallback?.(tokens)`.  The callback, being foreign
code, may throw (the `Bool` result); the token assignment has already
happened either way. -/
def setTokens (cbThrows : Nat → Bool) (s : StoreState)
    (tokens : OAuth2ClientTokensWithExpiration) :
    StoreState × List Action × Bool :=
  let s1 := { s with tokens := tokens }
  match s1.onTokensRefreshedCallback with
  | none => (s1, [Action.storeTokens tokens], false)
  | some cb =>
      let threw := cbThrows s1.cbCount
      ({ s1 with cbCount := s1.cbCount + 1 },
       [Action.storeTokens tokens, Action.invokeCb cb tokens threw], threw)

/-- Callers awaiting operation `op` (in arrival order). -/
def opWaiters (s : StoreState) (op : Nat) : List Nat :=
  (s.waiters.filter (fun w => decide (w.2 = op))).map (fun w => w.1)

/-- Remove the waiters of operation `op` (they have been settled). -/
def dropOpWaiters (s : StoreState) (op : Nat) : StoreState :=
  { s with waiters := s.waiters.filter (fun w => decide (¬ w.2 = op)) }

/-- One scheduler step: process one event, running the handler code of
`TokenStore` (`src/index.ts`, lines 36-129) together with all microtasks
it triggers, and emit the observable actions in execution order.

Faithfulness notes, keyed to the source:
* `call`: `getAccessToken()` — if `accessTokenExpired()` is false the
  cached token is returned at once; otherwise `refreshToken()` either
  returns the existing `_promise` (the caller joins its waiters) or
  issues `getNewAccessToken(this.getRefreshToken())` and publishes the
  new promise in `_promise`.
* `netOk`/`netFail` of the first attempt: the `.then` handler runs
  `setTokens` then `resolve()`; the `.catch` handler logs and schedules
  the retry via `setTimeout(..., 1000)` and then *returns*, so the
  `.finally` attached to this chain runs immediately afterwards and
  unconditionally clears `_promise` — also on the failure path, while
  the retry is still pending.  If the callback inside `setTokens`
  throws, `resolve()` is skipped and the `.catch` path runs instead.
* `netOk`/`netFail` of the retry attempt (inside the `setTimeout`):
  `.then` runs `setTokens` then `resolve()`; `.catch` calls
  `reject(new Error(...))`.  No `.finally` is attached to this chain.
* Waiter continuations (`return this.tokens.access_token`) are queued
  by `resolve()` before the first chain's `.finally`, hence deliveries
  precede the `clearMarker` action on the success path.
* `timerFire`: the `setTimeout` body re-reads `this.getRefreshToken()`
  at firing time and issues the retry request. -/
def step (cbThrows : Nat → Bool) (s : StoreState) (e : Event) :
    Option (StoreState × List Action) :=
  if s.now ≤ e.time ∧ timersOk s e.time then
    match e with
    | .register cb t =>
        some ({ onRefreshToken s cb with now := t }, [])
    | .call c t =>
        if accessTokenExpired t s then
          match s.marker with
          | some op =>
              some ({ s with now := t, waiters := s.waiters ++ [(c, op)] }, [])
          | none =>
              let op := s.nextOp
              let cid := s.nextCall
              let body := refreshRequestBody s.options (getRefreshToken s)
              some ({ s with
                        now := t
                        nextOp := op + 1
                        nextCall := cid + 1
                        pendingCalls := s.pendingCalls ++ [⟨cid, op, false⟩]
                        marker := some op
                        waiters := s.waiters ++ [(c, op)] },
                    [Action.netRequest cid s.options.tokenEndpoint body,
                     Action.setMarker op])
        else
          some ({ s with now := t }, [Action.deliverSuccess c s.tokens.access_token])
    | .netOk cid t data =>
        match s.pendingCalls.find? (fun pc => decide (pc.id = cid)) with
        | none => none
        | some pc =>
            let s1 := { s with
                          now := t
                          pendingCalls :=
                            s.pendingCalls.filter (fun q => decide (¬ q.id = cid)) }
            let tokens' := withExpiration t data
            match setTokens cbThrows s1 tokens' with
            | (s2, acts, threw) =>
                if threw then
                  if pc.isRetry then
                    some (dropOpWaiters s2 pc.op,
                          acts ++ (opWaiters s2 pc.op).map
                            (fun c => Action.deliverFailure c refreshFailedMsg))
                  else
                    some ({ s2 with
                              pendingTimers := s2.pendingTimers ++ [(t + 1000, pc.op)]
                              marker := none },
                          acts ++ [Action.logError retryLogMsg,
                                   Action.scheduleRetry pc.op (t + 1000),
                                   Action.clearMarker pc.op])
                else
                  let ds := (opWaiters s2 pc.op).map
                    (fun c => Action.deliverSuccess c tokens'.access_token)
                  if pc.isRetry then
                    some (dropOpWaiters s2 pc.op, acts ++ ds)
                  else
                    some ({ dropOpWaiters s2 pc.op with marker := none },
                          acts ++ ds ++ [Action.clearMarker pc.op])
    | .netFail cid t =>
        match s.pendingCalls.find? (fun pc => decide (pc.id = cid)) with
        | none => none
        | some pc =>
            let s1 := { s with
                          now := t
                          pendingCalls :=
                            s.pendingCalls.filter (fun q => decide (¬ q.id = cid)) }
            if pc.isRetry then
              some (dropOpWaiters s1 pc.op,
                    (opWaiters s1 pc.op).map
                      (fun c => Action.deliverFailure c refreshFailedMsg))
            else
              some ({ s1 with
                        pendingTimers := s1.pendingTimers ++ [(t + 1000, pc.op)]
                        marker := none },
                    [Action.logError retryLogMsg,
                     Action.scheduleRetry pc.op (t + 1000),
                     Action.clearMarker pc.op])
    | .timerFire op t =>
        if (t, op) ∈ s.pendingTimers then
          let cid := s.nextCall
          let body := refreshRequestBody s.options (getRefreshToken s)
          some ({ s with
                    now := t
                    nextCall := cid + 1
                    pendingTimers := s.pendingTimers.filter (fun p => decide (¬ p = (t, op)))
                    pendingCalls := s.pendingCalls ++ [⟨cid, op, true⟩] },
                [Action.netRequest cid s.options.tokenEndpoint body])
        else none
  else none

/-- Run a list of events from a state, concatenating the action traces. -/
def run (cbThrows : Nat → Bool) : StoreState → List Event →
    Option (StoreState × List Action)
  | s, [] => some (s, [])
  | s, e :: es =>
      match step cbThrows s e with
      | none => none
      | some (s1, acts) =>
          match run cbThrows s1 es with
          | none => none
          | some (s2, acts') => some (s2, acts ++ acts')

/-- A callback that never throws. -/
def cbNever : Nat → Bool := fun _ => false

/-- A callback that throws on its first invocation only. -/
def cbThrowsOnce : Nat → Bool := fun n => decide (n = 0)

/-- Outcome of one transport (axios) call: parsed body, or failure. -/
inductive TransportResult where
  | ok (data : OAuth2ClientTokens)
  | err (e : String)
deriving Repr, DecidableEq

/-- `OAuth2Client.login(clientOptions)`: one POST to the token endpoint;
on success a `TokenStore` seeded with `{...data, expires_at: Date.now()
+ data.expires_in * 1000}`; on transport failure the error propagates to
the caller unchanged (there is no catch).  The transport is an oracle
indexed by call number; the second component lists the request bodies
actually sent (always exactly one — no retry at this layer). -/
def login (options : OAuth2ClientOptions) (clientOptions : ClientOptions)
    (transport : Nat → TransportResult) (now : Nat) :
    Except String StoreState × List ClientOptions :=
  match transport 0 with
  | .err e => (Except.error e, [clientOptions])
  | .ok data =>
      (Except.ok (newTokenStore options (withExpiration now data)), [clientOptions])

/-- The request body built by `loginPassword`. -/
def loginPasswordOptions (options : OAuth2ClientOptions)
    (username password : String) : ClientOptions :=
  { grant_type := GrantType.password
    username := some username
    password := some password
    client_id := options.clientId
    client_secret := options.clientSecret
    scope := scopeParam options }

/-- The request body built by `loginAuthorization`. -/
def loginAuthorizationOptions (options : OAuth2ClientOptions)
    (code state : String) (grantType : GrantType) : ClientOptions :=
  { grant_type := grantType
    code := some code
    state := some state
    client_id := options.clientId
    client_secret := options.clientSecret
    scope := scopeParam options }

/-- `OAuth2Client.loginPassword(username, password)`. -/
def loginPassword (options : OAuth2ClientOptions) (username password : String)
    (transport : Nat → TransportResult) (now : Nat) :
    Except String StoreState × List ClientOptions :=
  login options (loginPasswordOptions options username password) transport now

/-- `OAuth2Client.loginAuthorization(code, state, grantType)`. -/
def loginAuthorization (options : OAuth2ClientOptions) (code state : String)
    (grantType : GrantType) (transport : Nat → TransportResult) (now : Nat) :
    Except String StoreState × List ClientOptions :=
  login options (loginAuthorizationOptions options code state grantType) transport now

/-- Sample fixtures for concrete executions. -/
def sampleOpts : OAuth2ClientOptions :=
  { clientId := "cid", clientSecret := "sec",
    tokenEndpoint := "https://auth.example/token", scopes := some ["a", "b"] }

/-- An already-expired stored token set (`expires_at = 0`). -/
def sampleTk : OAuth2ClientTokensWithExpiration :=
  { access_token := "a1", expires_in := 3600, refresh_token := "r1",
    scope := "a b", token_type := "Bearer", expires_at := 0 }

/-- A fresh token-endpoint response. -/
def sampleData : OAuth2ClientTokens :=
  { access_token := "a2", expires_in := 3600, refresh_token := "r2",
    scope := "a b", token_type := "Bearer" }

@[simp] theorem withExpiration_access_token (now : Nat) (d : OAuth2ClientTokens) :
    (withExpiration now d).access_token = d.access_token := rfl

@[simp] theorem withExpiration_refresh_token (now : Nat) (d : OAuth2ClientTokens) :
    (withExpiration now d).refresh_token = d.refresh_token := rfl

@[simp] theorem withExpiration_expires_in (now : Nat) (d : OAuth2ClientTokens) :
    (withExpiration now d).expires_in = d.expires_in := rfl

@[simp] theorem withExpiration_expires_at (now : Nat) (d : OAuth2ClientTokens) :
    (withExpiration now d).expires_at = now + d.expires_in * 1000 := rfl

theorem run_nil (cbT : Nat → Bool) (s : StoreState) : run cbT s [] = some (s, []) := rfl

theorem run_cons_eq (cbT : Nat → Bool) (s : StoreState) (e : Event) (es : List Event) :
    run cbT s (e :: es) =
      match step cbT s e with
      | none => none
      | some (s1, acts) =>
        match run cbT s1 es with
        | none => none
        | some (s2, acts') => some (s2, acts ++ acts') := rfl

theorem run_cons (cbT : Nat → Bool) (s : StoreState) (e : Event) (es : List Event)
    (s1 : StoreState) (a : List Action) (h : step cbT s e = some (s1, a)) :
    run cbT s (e :: es) = (run cbT s1 es).map (fun p => (p.1, a ++ p.2)) := by
  rw [run_cons_eq, h]
  dsimp only
  cases hr : run cbT s1 es with
  | none => rfl
  | some p => rfl

theorem run_append (cbT : Nat → Bool) (l1 l2 : List Event) :
    ∀ s : StoreState,
      run cbT s (l1 ++ l2) =
        (run cbT s l1).bind (fun p => (run cbT p.1 l2).map (fun q => (q.1, p.2 ++ q.2))) := by
  induction l1 with
  | nil =>
      intro s
      simp [run_nil]
  | cons e es ih =>
      intro s
      rw [List.cons_append, run_cons_eq, run_cons_eq]
      cases hstep : step cbT s e with
      | none => rfl
      | some p =>
          obtain ⟨s1, a⟩ := p
          dsimp only
          rw [ih s1]
          cases hr : run cbT s1 es with
          | none => rfl
          | some q =>
              obtain ⟨s2, b⟩ := q
              dsimp only
              cases hr2 : run cbT s2 l2 with
              | none => simp [hr2]
              | some r => simp [hr2, List.append_assoc]

theorem setTokens_fst_tokens (cbT : Nat → Bool) (s : StoreState)
    (ts : OAuth2ClientTokensWithExpiration) : (setTokens cbT s ts).1.tokens = ts := by
  unfold setTokens
  cases h : s.onTokensRefreshedCallback <;> simp

theorem setTokens_storeTokens_mem (cbT : Nat → Bool) (s : StoreState)
    (ts : OAuth2ClientTokensWithExpiration) :
    Action.storeTokens ts ∈ (setTokens cbT s ts).2.1 := by
  unfold setTokens
  cases h : s.onTokensRefreshedCallback <;> simp

/-- C1: Single-flight fails on the code: with the stored token expired,
caller 7 starts a refresh at t=0, the first attempt fails at t=5, and
caller 8 arrives at t=10 — before the operation settles (no outcome has
been delivered).  Because `.finally` already cleared `_promise`, caller 8
starts a second operation: the trace contains two network requests and
zero deliveries, and the two callers await two different operations
(waiter entries `(7, 0)` and `(8, 1)`), contradicting "exactly one
refresh network call ... every such caller observes the same pending
operation". -/
theorem second_network_call_during_retry_window :
    (run cbNever (newTokenStore sampleOpts sampleTk)
       [Event.call 7 0, Event.netFail 0 5, Event.call 8 10]).map
       (fun p => (p.2.countP Action.isNetRequest, p.2.countP Action.isDeliver, p.1.waiters)) =
      some (2, 0, [(7, 0), (8, 1)]) := by
  rfl

/-- C2: The "refresh in progress" marker (`_promise`) is cleared too
early on the code's failure path: after the first attempt fails at t=5
the final state has `marker = none` and the `clearMarker` action was
emitted, while the retry timer (due t=1005) is still pending and no
outcome has been delivered to any waiter — the `.finally` attached to the
first-attempt promise chain runs as soon as the `catch` handler returns. -/
theorem marker_cleared_while_retry_pending :
    (run cbNever (newTokenStore sampleOpts sampleTk)
       [Event.call 7 0, Event.netFail 0 5]).map
       (fun p => (p.1.marker, p.1.pendingTimers, p.2.countP Action.isDeliver,
                  p.2.countP Action.isClearMarker)) =
      some (none, [(1005, 0)], 0, 1) := by
  rfl

/-- C3: When the first refresh attempt fails (at any time `t1`), no
outcome is delivered to the waiting caller at that point; a retry is
scheduled and its network request is issued exactly at `t1 + 1000` with
the same refresh token (the stored one, unchanged); the operation makes
exactly two network requests in total, and after the retry settles no
timer or call is pending, so no further retry can occur. -/
theorem first_failure_masked_single_retry (opts : OAuth2ClientOptions)
    (tk : OAuth2ClientTokensWithExpiration) (c t0 t1 t2 : Nat)
    (h0 : tk.expires_at ≤ t0) (h1 : t0 ≤ t1) (h2 : t1 + 1000 ≤ t2) :
    (run cbNever (newTokenStore opts tk)
       [Event.call c t0, Event.netFail 0 t1, Event.timerFire 0 (t1 + 1000),
        Event.netFail 1 t2]).map
       (fun p => (p.2, p.1.pendingTimers, p.1.pendingCalls)) =
     some ([Action.netRequest 0 opts.tokenEndpoint (refreshRequestBody opts tk.refresh_token),
            Action.setMarker 0,
            Action.logError retryLogMsg,
            Action.scheduleRetry 0 (t1 + 1000),
            Action.clearMarker 0,
            Action.netRequest 1 opts.tokenEndpoint (refreshRequestBody opts tk.refresh_token),
            Action.deliverFailure c refreshFailedMsg],
           [], []) := by
  simp [run, step, newTokenStore, Event.time, timersOk, accessTokenExpired,
        getRefreshToken, opWaiters, dropOpWaiters, h0, h1, h2]

/-- Witness for C3 at concrete inputs (caller 7, failure at t=5, retry
at t=1005). -/
theorem first_failure_masked_single_retry_witness :
    (run cbNever (newTokenStore sampleOpts sampleTk)
       [Event.call 7 0, Event.netFail 0 5, Event.timerFire 0 (5 + 1000),
        Event.netFail 1 1005]).map
       (fun p => (p.2, p.1.pendingTimers, p.1.pendingCalls)) =
     some ([Action.netRequest 0 sampleOpts.tokenEndpoint
              (refreshRequestBody sampleOpts sampleTk.refresh_token),
            Action.setMarker 0,
            Action.logError retryLogMsg,
            Action.scheduleRetry 0 (5 + 1000),
            Action.clearMarker 0,
            Action.netRequest 1 sampleOpts.tokenEndpoint
              (refreshRequestBody sampleOpts sampleTk.refresh_token),
            Action.deliverFailure 7 refreshFailedMsg],
           [], []) :=
  first_failure_masked_single_retry sampleOpts sampleTk 7 0 5 1005
    (by decide) (by decide) (by decide)

theorem filter_pair_eq (op : Nat) (l : List Nat) :
    List.filter (fun w : Nat × Nat => decide (w.2 = op)) (l.map (fun x => (x, op))) =
      l.map (fun x => (x, op)) := by
  induction l with
  | nil => rfl
  | cons y ys ih => simp [ih]

theorem filter_pair_ne (op : Nat) (l : List Nat) :
    List.filter (fun w : Nat × Nat => decide (¬ w.2 = op)) (l.map (fun x => (x, op))) =
      [] := by
  induction l with
  | nil => rfl
  | cons y ys ih => simp [ih]

/-- Callers arriving while a refresh operation `op` is published in the
marker all join that operation's waiters and trigger nothing else. -/
theorem run_join_calls (cbT : Nat → Bool) (op t : Nat) :
    ∀ (cs : List Nat) (s : StoreState), s.marker = some op → s.tokens.expires_at ≤ t →
      s.now = t → timersOk s t →
      run cbT s (cs.map (fun x => Event.call x t)) =
        some ({ s with waiters := s.waiters ++ cs.map (fun x => (x, op)) }, []) := by
  intro cs
  induction cs with
  | nil =>
      intro s h1 h2 h3 h4
      simp [run_nil]
  | cons x xs ih =>
      intro s h1 h2 h3 h4
      rw [List.map_cons]
      rw [run_cons cbT s _ _ { s with now := t, waiters := s.waiters ++ [(x, op)] } []
            (by simp [step, Event.time, accessTokenExpired, h1, h2, h3.le, h4])]
      rw [ih { s with now := t, waiters := s.waiters ++ [(x, op)] } (by simp [h1])
            (by simp [h2]) (by simp) (by simpa [timersOk] using h4)]
      simp [h3]

/-- C4: With a callback registered and any number of callers
(`c :: rest`) awaiting while the token is expired, if both the initial
refresh attempt and its retry fail, then every waiting caller is
delivered the `Failed to refresh access token` failure (the trace ends
the operation with one `deliverFailure` per caller and nothing else for
it), the stored token set is still the original expired `tk` (no
`storeTokens` and no `invokeCb` occur anywhere in the trace), and a
subsequent `getAccessToken` call starts a fresh refresh cycle (network
request `2` of new operation `1`). -/
theorem refresh_exhausted_failure_propagation (opts : OAuth2ClientOptions)
    (tk : OAuth2ClientTokensWithExpiration) (k c c2 : Nat) (rest : List Nat)
    (t0 t1 t2 t3 : Nat)
    (h0 : tk.expires_at ≤ t0) (h1 : t0 ≤ t1) (h2 : t1 + 1000 ≤ t2) (h3 : t2 ≤ t3) :
    (run cbNever (newTokenStore opts tk)
        (Event.register k t0 :: Event.call c t0 ::
          (rest.map (fun x => Event.call x t0) ++
           [Event.netFail 0 t1, Event.timerFire 0 (t1 + 1000), Event.netFail 1 t2,
            Event.call c2 t3]))).map (fun p => (p.2, p.1.tokens, p.1.marker)) =
      some ([Action.netRequest 0 opts.tokenEndpoint (refreshRequestBody opts tk.refresh_token),
             Action.setMarker 0,
             Action.logError retryLogMsg,
             Action.scheduleRetry 0 (t1 + 1000),
             Action.clearMarker 0,
             Action.netRequest 1 opts.tokenEndpoint (refreshRequestBody opts tk.refresh_token)] ++
            (Action.deliverFailure c refreshFailedMsg ::
              rest.map (fun x => Action.deliverFailure x refreshFailedMsg)) ++
            [Action.netRequest 2 opts.tokenEndpoint (refreshRequestBody opts tk.refresh_token),
             Action.setMarker 1],
            tk, some 1) := by
  simp [run, run_append, run_join_calls, step, newTokenStore, Event.time, timersOk,
        accessTokenExpired, getRefreshToken, opWaiters, dropOpWaiters, onRefreshToken,
        Function.comp, filter_pair_eq, filter_pair_ne, h0, h1, h2, h3,
        le_trans h0 (le_trans h1 (le_trans (Nat.le_add_right t1 1000) (le_trans h2 h3)))]

/-- Witness for C4 at concrete inputs (one caller, failures at t=5 and
t=1005, fresh call at t=2000). -/
theorem refresh_exhausted_failure_propagation_witness :
    ((run cbNever (newTokenStore sampleOpts sampleTk)
        (Event.register 9 0 :: Event.call 7 0 ::
          (List.map (fun x => Event.call x 0) [] ++
           [Event.netFail 0 5, Event.timerFire 0 (5 + 1000), Event.netFail 1 1005,
            Event.call 8 2000]))).map (fun p => (p.2, p.1.tokens, p.1.marker))).isSome =
      true := by
  rw [refresh_exhausted_failure_propagation sampleOpts sampleTk 9 7 8 [] 0 5 1005 2000
        (by decide) (by decide) (by decide) (by decide)]
  rfl

/-- C5: On a successful refresh the store first replaces the stored
token set (`storeTokens`), then invokes the registered callback with the
new set, then resolves the waiter with the new access token — in that
order — and the callback fires exactly once.  This holds both when the
first attempt succeeds and on the failure-then-retry-success path (where
the delivered token is the one obtained by the retry). -/
theorem refresh_success_replace_notify_resolve_once (opts : OAuth2ClientOptions)
    (tk : OAuth2ClientTokensWithExpiration) (k c : Nat) (d : OAuth2ClientTokens)
    (t0 t1 t2 : Nat)
    (h0 : tk.expires_at ≤ t0) (h1 : t0 ≤ t1) (h2 : t1 + 1000 ≤ t2) :
    ((run cbNever (newTokenStore opts tk)
        [Event.register k t0, Event.call c t0, Event.netOk 0 t1 d]).map
        (fun p => (p.2, p.1.tokens, p.2.countP Action.isInvokeCb)) =
      some ([Action.netRequest 0 opts.tokenEndpoint (refreshRequestBody opts tk.refresh_token),
             Action.setMarker 0,
             Action.storeTokens (withExpiration t1 d),
             Action.invokeCb k (withExpiration t1 d) false,
             Action.deliverSuccess c d.access_token,
             Action.clearMarker 0],
            withExpiration t1 d, 1)) ∧
    ((run cbNever (newTokenStore opts tk)
        [Event.register k t0, Event.call c t0, Event.netFail 0 t1,
         Event.timerFire 0 (t1 + 1000), Event.netOk 1 t2 d]).map
        (fun p => (p.2, p.1.tokens, p.2.countP Action.isInvokeCb)) =
      some ([Action.netRequest 0 opts.tokenEndpoint (refreshRequestBody opts tk.refresh_token),
             Action.setMarker 0,
             Action.logError retryLogMsg,
             Action.scheduleRetry 0 (t1 + 1000),
             Action.clearMarker 0,
             Action.netRequest 1 opts.tokenEndpoint (refreshRequestBody opts tk.refresh_token),
             Action.storeTokens (withExpiration t2 d),
             Action.invokeCb k (withExpiration t2 d) false,
             Action.deliverSuccess c d.access_token],
            withExpiration t2 d, 1)) := by
  constructor
  · simp [run, step, newTokenStore, Event.time, timersOk, accessTokenExpired,
          getRefreshToken, opWaiters, dropOpWaiters, setTokens, onRefreshToken,
          cbNever, Action.isInvokeCb, h0, h1, h2]
  · simp [run, step, newTokenStore, Event.time, timersOk, accessTokenExpired,
          getRefreshToken, opWaiters, dropOpWaiters, setTokens, onRefreshToken,
          cbNever, Action.isInvokeCb, h0, h1, h2]

/-- Witness for C5 at concrete inputs. -/
theorem refresh_success_replace_notify_resolve_once_witness :
    ((run cbNever (newTokenStore sampleOpts sampleTk)
        [Event.register 9 0, Event.call 7 0, Event.netOk 0 5 sampleData]).map
        (fun p => (p.2, p.1.tokens, p.2.countP Action.isInvokeCb))).isSome = true := by
  rw [(refresh_success_replace_notify_resolve_once sampleOpts sampleTk 9 7 sampleData
        0 5 2000 (by decide) (by decide) (by decide)).1]
  rfl

/-- C6: Every token set the program stores carries
`expires_at = completion time of the exchange + expires_in * 1000`:
each scheduler step either leaves the stored token set untouched (and
emits no `storeTokens`) or wholesale-replaces it with
`withExpiration e.time data` for the response `data` received at that
step; and the token set seeded by a successful `login` satisfies the
same equation at the login's completion time. -/
theorem expires_at_derivation_invariant :
    (∀ (cbT : Nat → Bool) (s : StoreState) (e : Event) (s1 : StoreState) (tr : List Action),
        step cbT s e = some (s1, tr) →
        (s1.tokens = s.tokens ∧ ∀ ts, Action.storeTokens ts ∉ tr) ∨
        (∃ data, s1.tokens = withExpiration e.time data ∧
                 s1.tokens.expires_at = e.time + data.expires_in * 1000 ∧
                 Action.storeTokens s1.tokens ∈ tr)) ∧
    (∀ (opts : OAuth2ClientOptions) (co : ClientOptions)
        (transport : Nat → TransportResult) (now : Nat) (data : OAuth2ClientTokens)
        (s0 : StoreState) (reqs : List ClientOptions),
        transport 0 = TransportResult.ok data →
        login opts co transport now = (Except.ok s0, reqs) →
        s0.tokens = withExpiration now data ∧
        s0.tokens.expires_at = now + data.expires_in * 1000) := by
  constructor
  · intro cbT s e s1 tr h
    cases e with
    | register cb t =>
        simp only [step] at h
        split at h
        · rw [Option.some.injEq, Prod.mk.injEq] at h
          obtain ⟨hs, htr⟩ := h
          subst hs; subst htr
          left
          exact ⟨rfl, by simp⟩
        · cases h
    | call c t =>
        simp only [step] at h
        split at h
        · split at h
          · split at h
            · rw [Option.some.injEq, Prod.mk.injEq] at h
              obtain ⟨hs, htr⟩ := h
              subst hs; subst htr
              left
              exact ⟨rfl, by simp⟩
            · rw [Option.some.injEq, Prod.mk.injEq] at h
              obtain ⟨hs, htr⟩ := h
              subst hs; subst htr
              left
              exact ⟨rfl, by simp⟩
          · rw [Option.some.injEq, Prod.mk.injEq] at h
            obtain ⟨hs, htr⟩ := h
            subst hs; subst htr
            left
            exact ⟨rfl, by simp⟩
        · cases h
    | netOk cid t data =>
        simp only [step] at h
        split at h
        · split at h
          · cases h
          · rename_i pc hfind
            split at h
            · split at h
              · rw [Option.some.injEq, Prod.mk.injEq] at h
                obtain ⟨hs, htr⟩ := h
                subst hs; subst htr
                right
                refine ⟨data, ?_, ?_, ?_⟩
                · simp [dropOpWaiters, setTokens_fst_tokens, Event.time]
                · simp [dropOpWaiters, setTokens_fst_tokens, Event.time]
                · simp [dropOpWaiters, setTokens_fst_tokens, List.mem_append]
                  exact setTokens_storeTokens_mem _ _ _
              · rw [Option.some.injEq, Prod.mk.injEq] at h
                obtain ⟨hs, htr⟩ := h
                subst hs; subst htr
                right
                refine ⟨data, ?_, ?_, ?_⟩
                · simp [setTokens_fst_tokens, Event.time]
                · simp [setTokens_fst_tokens, Event.time]
                · simp [setTokens_fst_tokens, List.mem_append]
                  exact setTokens_storeTokens_mem _ _ _
            · split at h
              · rw [Option.some.injEq, Prod.mk.injEq] at h
                obtain ⟨hs, htr⟩ := h
                subst hs; subst htr
                right
                refine ⟨data, ?_, ?_, ?_⟩
                · simp [dropOpWaiters, setTokens_fst_tokens, Event.time]
                · simp [dropOpWaiters, setTokens_fst_tokens, Event.time]
                · simp [dropOpWaiters, setTokens_fst_tokens, List.mem_append]
                  exact setTokens_storeTokens_mem _ _ _
              · rw [Option.some.injEq, Prod.mk.injEq] at h
                obtain ⟨hs, htr⟩ := h
                subst hs; subst htr
                right
                refine ⟨data, ?_, ?_, ?_⟩
                · simp [dropOpWaiters, setTokens_fst_tokens, Event.time]
                · simp [dropOpWaiters, setTokens_fst_tokens, Event.time]
                · simp [dropOpWaiters, setTokens_fst_tokens, List.mem_append]
                  exact setTokens_storeTokens_mem _ _ _
        · cases h
    | netFail cid t =>
        simp only [step] at h
        split at h
        · split at h
          · cases h
          · rename_i pc hfind
            split at h
            · rw [Option.some.injEq, Prod.mk.injEq] at h
              obtain ⟨hs, htr⟩ := h
              subst hs; subst htr
              left
              refine ⟨by simp [dropOpWaiters], ?_⟩
              intro ts
              simp [List.mem_map]
            · rw [Option.some.injEq, Prod.mk.injEq] at h
              obtain ⟨hs, htr⟩ := h
              subst hs; subst htr
              left
              exact ⟨rfl, by simp⟩
        · cases h
    | timerFire op t =>
        simp only [step] at h
        split at h
        · split at h
          · rw [Option.some.injEq, Prod.mk.injEq] at h
            obtain ⟨hs, htr⟩ := h
            subst hs; subst htr
            left
            exact ⟨rfl, by simp⟩
          · cases h
        · cases h
  · intro opts co transport now data s0 reqs h1 h2
    unfold login at h2
    rw [h1] at h2
    rw [Prod.mk.injEq] at h2
    obtain ⟨h2a, h2b⟩ := h2
    rw [Except.ok.injEq] at h2a
    subst h2a
    exact ⟨rfl, by simp [newTokenStore, withExpiration]⟩

/-- Witness for C6: a concrete step (callback registration) leaves the
token set untouched, and a concrete successful login seeds
`expires_at = now + expires_in * 1000`. -/
theorem expires_at_derivation_invariant_witness :
    ({ newTokenStore sampleOpts sampleTk with
         onTokensRefreshedCallback := some 9
         now := 0 } : StoreState).tokens = sampleTk ∧
    (newTokenStore sampleOpts (withExpiration 5 sampleData)).tokens.expires_at =
      5 + sampleData.expires_in * 1000 := by
  constructor
  · have h := expires_at_derivation_invariant.1 cbNever (newTokenStore sampleOpts sampleTk)
      (Event.register 9 0)
      { newTokenStore sampleOpts sampleTk with
          onTokensRefreshedCallback := some 9
          now := 0 }
      [] rfl
    rcases h with ⟨h1, _⟩ | ⟨data, _, _, hmem⟩
    · exact h1
    · exact absurd hmem (List.not_mem_nil _)
  · have h := expires_at_derivation_invariant.2 sampleOpts
      (loginPasswordOptions sampleOpts "u" "p") (fun _ => TransportResult.ok sampleData)
      5 sampleData _ _ rfl rfl
    exact h.2

/-- C7: `accessTokenExpired` is `now ≥ expires_at`, inclusive of the
boundary instant; a `getAccessToken` call with `now < expires_at`
returns the cached access token at once and issues no network request
and no state change beyond the clock; with `now ≥ expires_at` it either
joins the operation already published in the marker or — when none is in
flight — issues precisely one refresh network request and, in the same
step, publishes the new operation. -/
theorem getAccessToken_cache_iff_not_expired :
    (∀ (now : Nat) (s : StoreState),
        accessTokenExpired now s = true ↔ s.tokens.expires_at ≤ now) ∧
    (∀ (cbT : Nat → Bool) (s : StoreState) (c t : Nat),
        s.now ≤ t → timersOk s t → accessTokenExpired t s = false →
        step cbT s (Event.call c t) =
          some ({ s with now := t }, [Action.deliverSuccess c s.tokens.access_token])) ∧
    (∀ (cbT : Nat → Bool) (s : StoreState) (c t op : Nat),
        s.now ≤ t → timersOk s t → accessTokenExpired t s = true → s.marker = some op →
        step cbT s (Event.call c t) =
          some ({ s with now := t, waiters := s.waiters ++ [(c, op)] }, [])) ∧
    (∀ (cbT : Nat → Bool) (s : StoreState) (c t : Nat),
        s.now ≤ t → timersOk s t → accessTokenExpired t s = true → s.marker = none →
        step cbT s (Event.call c t) =
          some ({ s with
                    now := t
                    nextOp := s.nextOp + 1
                    nextCall := s.nextCall + 1
                    pendingCalls := s.pendingCalls ++ [⟨s.nextCall, s.nextOp, false⟩]
                    marker := some s.nextOp
                    waiters := s.waiters ++ [(c, s.nextOp)] },
                [Action.netRequest s.nextCall s.options.tokenEndpoint
                   (refreshRequestBody s.options (getRefreshToken s)),
                 Action.setMarker s.nextOp])) := by
  refine ⟨?_, ?_, ?_, ?_⟩
  · intro now s
    simp [accessTokenExpired]
  · intro cbT s c t hn ht hx
    simp [step, Event.time, hn, ht, hx]
  · intro cbT s c t op hn ht hx hm
    simp [step, Event.time, hn, ht, hx, hm]
  · intro cbT s c t hn ht hx hm
    simp [step, Event.time, hn, ht, hx, hm]

/-- Witness for C7: the boundary equivalence at `now = expires_at`, a
cached return on a fresh token, a join on an in-flight marker, and a
fresh start when idle, all at concrete inputs. -/
theorem getAccessToken_cache_iff_not_expired_witness :
    (accessTokenExpired 0 (newTokenStore sampleOpts sampleTk) = true ↔
      sampleTk.expires_at ≤ 0) ∧
    step cbNever (newTokenStore sampleOpts (withExpiration 5 sampleData)) (Event.call 7 6) =
      some ({ newTokenStore sampleOpts (withExpiration 5 sampleData) with now := 6 },
            [Action.deliverSuccess 7 sampleData.access_token]) ∧
    step cbNever { newTokenStore sampleOpts sampleTk with marker := some 0 } (Event.call 7 3) =
      some ({ newTokenStore sampleOpts sampleTk with
                marker := some 0
                now := 3
                waiters := [(7, 0)] }, []) ∧
    step cbNever (newTokenStore sampleOpts sampleTk) (Event.call 7 3) =
      some ({ newTokenStore sampleOpts sampleTk with
                now := 3
                nextOp := 1
                nextCall := 1
                pendingCalls := [⟨0, 0, false⟩]
                marker := some 0
                waiters := [(7, 0)] },
            [Action.netRequest 0 sampleOpts.tokenEndpoint
               (refreshRequestBody sampleOpts sampleTk.refresh_token),
             Action.setMarker 0]) := by
  refine ⟨getAccessToken_cache_iff_not_expired.1 0 (newTokenStore sampleOpts sampleTk),
          ?_, ?_, ?_⟩
  · exact getAccessToken_cache_iff_not_expired.2.1 cbNever
      (newTokenStore sampleOpts (withExpiration 5 sampleData)) 7 6
      (by decide) (by decide) (by decide)
  · exact getAccessToken_cache_iff_not_expired.2.2.1 cbNever
      { newTokenStore sampleOpts sampleTk with marker := some 0 } 7 3 0
      (by decide) (by decide) (by decide) rfl
  · exact getAccessToken_cache_iff_not_expired.2.2.2 cbNever
      (newTokenStore sampleOpts sampleTk) 7 3
      (by decide) (by decide) (by decide) rfl

/-- C8: `onRefreshToken` is a single-slot registration — it overwrites
the stored callback — and after registering `k1` then `k2`, the next
successful refresh invokes only `k2` (the trace's only `invokeCb` action
names `k2`). -/
theorem onRefreshToken_single_slot_replacement (opts : OAuth2ClientOptions)
    (tk : OAuth2ClientTokensWithExpiration) (k1 k2 c : Nat) (d : OAuth2ClientTokens)
    (t0 t1 : Nat) (h0 : tk.expires_at ≤ t0) (h1 : t0 ≤ t1) :
    (∀ (s : StoreState) (k : Nat),
        onRefreshToken s k = { s with onTokensRefreshedCallback := some k }) ∧
    ((run cbNever (newTokenStore opts tk)
        [Event.register k1 t0, Event.register k2 t0, Event.call c t0,
         Event.netOk 0 t1 d]).map
        (fun p => (p.2.filter Action.isInvokeCb, p.1.onTokensRefreshedCallback)) =
      some ([Action.invokeCb k2 (withExpiration t1 d) false], some k2)) := by
  constructor
  · intro s k
    rfl
  · simp [run, step, newTokenStore, Event.time, timersOk, accessTokenExpired,
          getRefreshToken, opWaiters, dropOpWaiters, setTokens, onRefreshToken,
          cbNever, Action.isInvokeCb, h0, h1]

/-- Witness for C8 at concrete inputs. -/
theorem onRefreshToken_single_slot_replacement_witness :
    ((run cbNever (newTokenStore sampleOpts sampleTk)
        [Event.register 8 0, Event.register 9 0, Event.call 7 0,
         Event.netOk 0 5 sampleData]).map
        (fun p => (p.2.filter Action.isInvokeCb, p.1.onTokensRefreshedCallback))).isSome =
      true := by
  rw [(onRefreshToken_single_slot_replacement sampleOpts sampleTk 8 9 7 sampleData 0 5
        (by decide) (by decide)).2]
  rfl

/-- C9: If the transport call of an initial grant fails with error `e`,
both `loginPassword` and `loginAuthorization` fail with exactly that
error (the transport error is surfaced, not swallowed — this failure
outcome is what the specification names `AuthError(EndpointFailure)`),
exactly one transport request is made (no retry at this layer), and no
`TokenStore` is produced. -/
theorem login_transport_failure_propagates (opts : OAuth2ClientOptions)
    (u pw code st : String) (gt : GrantType) (transport : Nat → TransportResult)
    (now : Nat) (e : String) (h : transport 0 = TransportResult.err e) :
    loginPassword opts u pw transport now =
      (Except.error e, [loginPasswordOptions opts u pw]) ∧
    loginAuthorization opts code st gt transport now =
      (Except.error e, [loginAuthorizationOptions opts code st gt]) := by
  unfold loginPassword loginAuthorization login
  rw [h]
  exact ⟨rfl, rfl⟩

/-- Witness for C9 at concrete inputs. -/
theorem login_transport_failure_propagates_witness :
    loginPassword sampleOpts "alice" "pw" (fun _ => TransportResult.err "ECONNREFUSED") 42 =
      (Except.error "ECONNREFUSED", [loginPasswordOptions sampleOpts "alice" "pw"]) ∧
    loginAuthorization sampleOpts "code" "st" GrantType.ad
        (fun _ => TransportResult.err "ECONNREFUSED") 42 =
      (Except.error "ECONNREFUSED",
       [loginAuthorizationOptions sampleOpts "code" "st" GrantType.ad]) :=
  login_transport_failure_propagates sampleOpts "alice" "pw" "code" "st" GrantType.ad
    (fun _ => TransportResult.err "ECONNREFUSED") 42 "ECONNREFUSED" rfl

/-- C10: If the registered callback throws on its first invocation
(after a successful first refresh attempt), the stored token set has
already been replaced by `withExpiration t1 d1`, `resolve()` is skipped
and the failure path runs: no outcome is delivered, the retry is
scheduled and its network request at `t1 + 1000` carries the just-stored
new refresh token `d1.refresh_token`, and when the retry succeeds the
callback is invoked a second time (two `invokeCb` actions in total). -/
theorem callback_throw_reenters_failure_path (opts : OAuth2ClientOptions)
    (tk : OAuth2ClientTokensWithExpiration) (k c : Nat) (d1 d2 : OAuth2ClientTokens)
    (t0 t1 t2 : Nat)
    (h0 : tk.expires_at ≤ t0) (h1 : t0 ≤ t1) (h2 : t1 + 1000 ≤ t2) :
    (run cbThrowsOnce (newTokenStore opts tk)
       [Event.register k t0, Event.call c t0, Event.netOk 0 t1 d1,
        Event.timerFire 0 (t1 + 1000), Event.netOk 1 t2 d2]).map
       (fun p => (p.2, p.1.tokens, p.2.countP Action.isInvokeCb)) =
     some ([Action.netRequest 0 opts.tokenEndpoint (refreshRequestBody opts tk.refresh_token),
            Action.setMarker 0,
            Action.storeTokens (withExpiration t1 d1),
            Action.invokeCb k (withExpiration t1 d1) true,
            Action.logError retryLogMsg,
            Action.scheduleRetry 0 (t1 + 1000),
            Action.clearMarker 0,
            Action.netRequest 1 opts.tokenEndpoint (refreshRequestBody opts d1.refresh_token),
            Action.storeTokens (withExpiration t2 d2),
            Action.invokeCb k (withExpiration t2 d2) false,
            Action.deliverSuccess c d2.access_token],
           withExpiration t2 d2, 2) := by
  simp [run, step, newTokenStore, Event.time, timersOk, accessTokenExpired,
        getRefreshToken, opWaiters, dropOpWaiters, setTokens, onRefreshToken,
        cbThrowsOnce, Action.isInvokeCb, h0, h1, h2]

/-- Witness for C10 at concrete inputs. -/
theorem callback_throw_reenters_failure_path_witness :
    ((run cbThrowsOnce (newTokenStore sampleOpts sampleTk)
        [Event.register 9 0, Event.call 7 0, Event.netOk 0 5 sampleData,
         Event.timerFire 0 (5 + 1000), Event.netOk 1 2000 sampleData]).map
        (fun p => (p.2, p.1.tokens, p.2.countP Action.isInvokeCb))).isSome = true := by
  rw [callback_throw_reenters_failure_path sampleOpts sampleTk 9 7 sampleData sampleData
        0 5 2000 (by decide) (by decide) (by decide)]
  rfl

end OAuthClient
